import Mathlib

/-!
Verification of the FSRS-6 scheduler of this repository (src/app/fsrs.py)
and the grade validation of its review endpoint (src/app/routes.py).

Modelling conventions:
- Python floats are modelled as real numbers (ℝ); `math.pow` and `math.exp`
  become `Real.rpow` (the `^` below with real exponents) and `Real.exp`.
- Timestamps (`datetime`) are real numbers counting seconds; subtraction of
  two timestamps yields seconds, and `timedelta(days=x)` adds `x * 86400`
  seconds, matching `total_seconds() / 86400.0` in the source.
- The source's `schedule_card` reads the wall clock itself through
  `datetime.utcnow()`; the model makes that ambient clock an explicit
  argument `now` (all the utcnow() calls of one invocation are taken to
  return the same instant).
- The `card_state` dict with `.get(key, default)` accesses is modelled as a
  structure of `Option` fields read through `Option.getD`.
- The weight list `self.w` is modelled as a function `ℕ → ℝ`.
-/

noncomputable section

namespace FsrsModel

/-- The 21 default parameters w0..w20 from `FSRS.DEFAULT_PARAMS`. -/
def DEFAULT_PARAMS : ℕ → ℝ := fun i =>
  match i with
  | 0 => 0.4072
  | 1 => 1.1829
  | 2 => 3.1262
  | 3 => 15.4722
  | 4 => 7.2102
  | 5 => 0.5316
  | 6 => 1.0651
  | 7 => 0.0234
  | 8 => 1.616
  | 9 => 0.1544
  | 10 => 0.9221
  | 11 => 2.0063
  | 12 => 0.2272
  | 13 => 0.2281
  | 14 => 1.5662
  | 15 => 0
  | 16 => 2.9469
  | 17 => 0.2272
  | 18 => 2.8284
  | 19 => 0
  | 20 => 0.15
  | _ => 0

/-- The scheduler object: weights, desired retention, and the two derived
constants set in `FSRS.__init__`. -/
structure FSRS where
  w : ℕ → ℝ
  desired_retention : ℝ
  DECAY : ℝ
  FACTOR : ℝ

/-- `FSRS.__init__(params, desired_retention)`: `params=None` selects
`DEFAULT_PARAMS`; `DECAY = -0.5`; `FACTOR = 0.9 ** (1 / DECAY) - 1`. -/
def FSRS.init (params : Option (ℕ → ℝ)) (desired_retention : ℝ) : FSRS :=
  let w := params.getD DEFAULT_PARAMS
  let DECAY : ℝ := -0.5
  { w := w
    desired_retention := desired_retention
    DECAY := DECAY
    FACTOR := (0.9 : ℝ) ^ ((1 : ℝ) / DECAY) - 1 }

/-- `FSRS.calculate_retrievability(elapsed_days, stability)`. -/
def FSRS.calculate_retrievability (f : FSRS) (elapsed_days stability : ℝ) : ℝ :=
  if stability ≤ 0 then 1
  else if elapsed_days ≤ 0 then 1
  else
    let t_over_s := elapsed_days / stability
    let base := 1 + f.FACTOR * t_over_s ^ f.DECAY
    let r := base ^ f.DECAY
    max 0 (min 1 r)

/-- `FSRS.calculate_interval(stability, desired_retention=None)`. -/
def FSRS.calculate_interval (f : FSRS) (stability : ℝ)
    (desired_retention : Option ℝ) : ℝ :=
  let dr := desired_retention.getD f.desired_retention
  let interval := stability / f.FACTOR * (dr ^ ((1 : ℝ) / f.DECAY) - 1)
  max 0.1 interval

/-- `FSRS.init_difficulty(grade)`: `D0 = w4 - w5 * (G - 3)` clamped to [1,10]. -/
def FSRS.init_difficulty (f : FSRS) (grade : ℤ) : ℝ :=
  let d0 := f.w 4 - f.w 5 * ((grade : ℝ) - 3)
  max 1 (min 10 d0)

/-- `FSRS.init_stability(grade)`: lookup w0/w1/w2/w3; every grade other than
1, 2, 3 falls into the trailing `else` (Easy) bucket, exactly as the Python
`if/elif/else` chain does. -/
def FSRS.init_stability (f : FSRS) (grade : ℤ) : ℝ :=
  if grade = 1 then f.w 0
  else if grade = 2 then f.w 1
  else if grade = 3 then f.w 2
  else f.w 3

/-- `FSRS.next_difficulty(d, grade)`. -/
def FSRS.next_difficulty (f : FSRS) (d : ℝ) (grade : ℤ) : ℝ :=
  let delta_d : ℝ :=
    if grade = 1 then -f.w 6 * ((grade : ℝ) - 3)
    else if grade = 2 then -f.w 6 * ((grade : ℝ) - 3)
    else if grade = 4 then -f.w 7 * ((grade : ℝ) - 3)
    else 0
  let d_prime := d + delta_d * (10 - d) / 9
  let mean_reversion : ℝ := 0.5
  let d_double_prime := mean_reversion * d_prime + (1 - mean_reversion) * f.w 4
  max 1 (min 10 d_double_prime)

/-- `FSRS.next_stability(s, d, r, grade, is_lapse=False)`. -/
def FSRS.next_stability (f : FSRS) (s d r : ℝ) (grade : ℤ) (is_lapse : Bool) : ℝ :=
  if is_lapse ∨ grade = 1 then
    let new_s := f.w 11 * d ^ (-(f.w 12)) * ((s + 1) ^ (f.w 13) - 1) *
      Real.exp (f.w 10 * (1 - r))
    min s (max 0.1 new_s)
  else
    let f_d := 11 - d
    let f_s := if s > 0 then s ^ (-(f.w 9)) else 1
    let f_r := Real.exp (f.w 10 * (1 - r)) - 1
    let grade_factors : ℝ × ℝ :=
      if grade = 2 then (0.5, 1)
      else if grade = 4 then (1, f.w 16)
      else (1, 1)
    let s_inc := 1 + Real.exp (f.w 8) * f_d * f_s * f_r *
      grade_factors.1 * grade_factors.2
    let new_s := s * s_inc
    max 0.1 new_s

/-- The `card_state` dict passed to `schedule_card`, with one `Option` field
per key the source reads through `.get`. -/
structure CardState where
  state : Option String
  stability : Option ℝ
  difficulty : Option ℝ
  retrievability : Option ℝ
  last_review : Option ℝ
  reps : Option ℕ
  lapses : Option ℕ

/-- The dict returned by `schedule_card`. -/
structure SchedResult where
  state : String
  stability : ℝ
  difficulty : ℝ
  retrievability : ℝ
  interval : ℝ
  due_date : ℝ
  reps : ℕ
  lapses : ℕ
  last_review : ℝ

/-- `FSRS.schedule_card(grade, card_state)`; `now` is the instant the three
`datetime.utcnow()` calls of the source return. The branch computes the
tuple (new_s, new_d, new_state, new_lapses, r) and the shared tail builds
the returned dict, as in the source. -/
def FSRS.schedule_card (f : FSRS) (grade : ℤ) (card_state : CardState)
    (now : ℝ) : SchedResult :=
  let state := card_state.state.getD "new"
  let s := card_state.stability.getD 0
  let d := card_state.difficulty.getD 5
  let r := card_state.retrievability.getD 1
  let last_review := card_state.last_review
  let reps := card_state.reps.getD 0
  let lapses := card_state.lapses.getD 0
  let step : ℝ × ℝ × String × ℕ × ℝ :=
    if state = "new" ∨ reps = 0 then
      (f.init_stability grade, f.init_difficulty grade,
        if grade = 1 then "learning" else "review",
        if grade = 1 then lapses + 1 else lapses, r)
    else
      let r2 :=
        match last_review with
        | some lr => f.calculate_retrievability ((now - lr) / 86400) s
        | none => (1 : ℝ)
      let new_d := f.next_difficulty d grade
      let new_s := f.next_stability s d r2 grade (decide (grade = 1))
      let new_state := if grade = 1 then "relearning" else "review"
      let new_lapses := if grade = 1 then lapses + 1 else lapses
      (new_s, new_d, new_state, new_lapses, r2)
  let new_interval := f.calculate_interval step.1 none
  { state := step.2.2.1
    stability := step.1
    difficulty := step.2.1
    retrievability := step.2.2.2.2
    interval := new_interval
    due_date := now + new_interval * 86400
    reps := reps + 1
    lapses := step.2.2.2.1
    last_review := now }

/-- The grade validation of `review_card` in src/app/routes.py: a grade not
in [1, 2, 3, 4] is rejected with an error before `schedule_card` is called. -/
def review_card (f : FSRS) (grade : ℤ) (card_state : CardState) (now : ℝ) :
    Except String SchedResult :=
  if grade = 1 ∨ grade = 2 ∨ grade = 3 ∨ grade = 4 then
    Except.ok (f.schedule_card grade card_state now)
  else
    Except.error "Invalid grade. Must be 1-4"

/-- A freshly imported card, as `upload_deck` in src/app/routes.py creates
it: state new, difficulty 5.0, stability 0.0, retrievability 1.0, never
reviewed (the reps and lapses columns default to 0 in the Card model). -/
def newCard : CardState :=
  { state := some "new"
    stability := some 0
    difficulty := some 5
    retrievability := some 1
    last_review := none
    reps := some 0
    lapses := some 0 }

/-- The scheduler instance the routes use: `fsrs_scheduler = FSRS()` in
src/app/routes.py, i.e. default parameters and desired retention 0.9. -/
def defaultFSRS : FSRS := FSRS.init none 0.9

/-- A new card whose persisted retrievability 5 lies outside [0,1], used to
probe that the first-review branch propagates it untouched. -/
def weirdRetrCard : CardState :=
  { state := some "new"
    stability := some 0
    difficulty := some 5
    retrievability := some 5
    last_review := none
    reps := some 0
    lapses := some 0 }

/-- A card with review history whose persisted stability 0.05 lies below
0.1 (but inside [0,100]), used to probe the lapse branch. -/
def lowStabilityCard : CardState :=
  { state := some "review"
    stability := some 0.05
    difficulty := some 5
    retrievability := some 1
    last_review := some 0
    reps := some 1
    lapses := some 0 }

/-! ### Basic facts about the constructed scheduler -/

theorem defaultFSRS_w : defaultFSRS.w = DEFAULT_PARAMS := rfl

theorem init_DECAY (p : Option (ℕ → ℝ)) (dr : ℝ) : (FSRS.init p dr).DECAY = -0.5 := rfl

theorem init_FACTOR (p : Option (ℕ → ℝ)) (dr : ℝ) :
    (FSRS.init p dr).FACTOR = (0.9 : ℝ) ^ ((1 : ℝ) / (-0.5 : ℝ)) - 1 := rfl

theorem factor_value : (0.9 : ℝ) ^ ((1 : ℝ) / (-0.5 : ℝ)) - 1 = 19 / 81 := by
  have h : ((1 : ℝ) / (-0.5 : ℝ)) = ((-2 : ℤ) : ℝ) := by norm_num
  rw [h, Real.rpow_intCast]
  norm_num

/-- Claim C10: with the default desired retention 0.9, `calculate_interval`
collapses to `max 0.1 S` for every stability `S`, because the factor
`0.9 ** (1/DECAY) - 1` in the interval formula is the very expression that
defines `FACTOR`, so the two cancel. Stated for a scheduler built with any
parameter list and the default retention 0.9. -/
theorem C10_interval_is_stability (p : Option (ℕ → ℝ)) (s : ℝ) :
    (FSRS.init p 0.9).calculate_interval s none = max 0.1 s := by
  unfold FSRS.calculate_interval
  have hF : (FSRS.init p 0.9).FACTOR = 19 / 81 := by
    rw [init_FACTOR, factor_value]
  have hD : (FSRS.init p 0.9).DECAY = -0.5 := init_DECAY p 0.9
  have hdr : ((none : Option ℝ).getD (FSRS.init p 0.9).desired_retention) = 0.9 := rfl
  simp only [hdr, hF, hD, factor_value]
  rw [div_mul_cancel₀ s (by norm_num : (19 / 81 : ℝ) ≠ 0)]

/-- Claim C3: for grade 1 (Again), `next_stability` returns exactly
`min(S, max(0.1, w11 * D^(-w12) * ((S+1)^w13 - 1) * exp(w10*(1-R))))`,
for any weights, state and `is_lapse` flag; consequently a lapse never
yields a stability above the prior stability. -/
theorem C3_lapse_formula_and_bound (f : FSRS) (s d r : ℝ) (b : Bool) :
    f.next_stability s d r 1 b =
      min s (max 0.1 (f.w 11 * d ^ (-(f.w 12)) * ((s + 1) ^ (f.w 13) - 1) *
        Real.exp (f.w 10 * (1 - r)))) ∧
    f.next_stability s d r 1 b ≤ s := by
  constructor
  · unfold FSRS.next_stability
    rw [if_pos (Or.inr rfl)]
  · unfold FSRS.next_stability
    rw [if_pos (Or.inr rfl)]
    exact min_le_left _ _

/-- Claim C5: `calculate_retrievability` returns exactly 1 whenever the
stability or the elapsed time is nonpositive, and otherwise returns
`(1 + FACTOR * (t/S) ^ (-0.5)) ^ (-0.5)` clamped to [0,1]; in particular it
is 1 at elapsed 0 with stability 10, and 1 at stability 0 for every elapsed
time. Stated for a scheduler built with any parameters and retention. -/
theorem C5_retrievability_cases (p : Option (ℕ → ℝ)) (dr t s : ℝ) :
    ((s ≤ 0 ∨ t ≤ 0) → (FSRS.init p dr).calculate_retrievability t s = 1) ∧
    (0 < s → 0 < t →
      (FSRS.init p dr).calculate_retrievability t s =
        max 0 (min 1 ((1 + (FSRS.init p dr).FACTOR * (t / s) ^ (-0.5 : ℝ)) ^
          (-0.5 : ℝ)))) ∧
    (FSRS.init p dr).calculate_retrievability 0 10 = 1 ∧
    (FSRS.init p dr).calculate_retrievability t 0 = 1 := by
  refine ⟨?_, ?_, ?_, ?_⟩
  · rintro (hs | ht)
    · unfold FSRS.calculate_retrievability
      rw [if_pos hs]
    · unfold FSRS.calculate_retrievability
      by_cases hs2 : s ≤ 0
      · rw [if_pos hs2]
      · rw [if_neg hs2, if_pos ht]
  · intro hs ht
    unfold FSRS.calculate_retrievability
    rw [if_neg (not_le.mpr hs), if_neg (not_le.mpr ht)]
    simp only [init_DECAY]
  · unfold FSRS.calculate_retrievability
    rw [if_neg (by norm_num : ¬ (10 : ℝ) ≤ 0), if_pos le_rfl]
  · unfold FSRS.calculate_retrievability
    rw [if_pos le_rfl]

/-- Claim C5, witness: the nonpositive-input branch applied at elapsed 0,
stability 10. -/
theorem C5_witness :
    (FSRS.init none 0.9).calculate_retrievability 0 10 = 1 :=
  (C5_retrievability_cases none 0.9 0 10).1 (Or.inr le_rfl)

/-- Claim C7: `next_difficulty(D, g)` is the clamp to [1,10] of
`0.5 * (D + delta * (10 - D) / 9) + 0.5 * w4`, where delta is
`-w6 * (g - 3)` for Again and Hard (the shared coefficient w6),
`-w7 * (g - 3)` for Easy, and 0 for Good; the reversion factor is the
constant 0.5, not a configured weight. -/
theorem C7_next_difficulty_formula (f : FSRS) (d : ℝ) (grade : ℤ) :
    ((grade = 1 ∨ grade = 2) → f.next_difficulty d grade =
      max 1 (min 10 (0.5 * (d + (-f.w 6 * ((grade : ℝ) - 3)) * (10 - d) / 9) +
        0.5 * f.w 4))) ∧
    (grade = 4 → f.next_difficulty d grade =
      max 1 (min 10 (0.5 * (d + (-f.w 7 * ((grade : ℝ) - 3)) * (10 - d) / 9) +
        0.5 * f.w 4))) ∧
    (grade = 3 → f.next_difficulty d grade =
      max 1 (min 10 (0.5 * (d + 0 * (10 - d) / 9) + 0.5 * f.w 4))) := by
  refine ⟨?_, ?_, ?_⟩
  · rintro (h | h) <;> subst h <;> unfold FSRS.next_difficulty <;>
      simp only [if_pos rfl, if_neg (by decide : ¬ (2 : ℤ) = 1)] <;>
      refine congrArg (fun x => max 1 (min 10 x)) ?_ <;> push_cast <;> ring
  · intro h
    subst h
    unfold FSRS.next_difficulty
    simp only [if_neg (by decide : ¬ (4 : ℤ) = 1),
      if_neg (by decide : ¬ (4 : ℤ) = 2), if_pos rfl]
    refine congrArg (fun x => max 1 (min 10 x)) ?_
    push_cast
    ring
  · intro h
    subst h
    unfold FSRS.next_difficulty
    simp only [if_neg (by decide : ¬ (3 : ℤ) = 1),
      if_neg (by decide : ¬ (3 : ℤ) = 2), if_neg (by decide : ¬ (3 : ℤ) = 4)]
    refine congrArg (fun x => max 1 (min 10 x)) ?_
    ring

/-- Claim C7, witness: the formula applied at D = 5, grade = Hard. -/
theorem C7_witness :
    defaultFSRS.next_difficulty 5 2 =
      max 1 (min 10 (0.5 * (5 + (-defaultFSRS.w 6 * (((2 : ℤ) : ℝ) - 3)) *
        (10 - 5) / 9) + 0.5 * defaultFSRS.w 4)) :=
  (C7_next_difficulty_formula defaultFSRS 5 2).1 (Or.inr rfl)

/-- Claim C4: on the success branch (grades 2, 3, 4 with `is_lapse=False`),
under the default weights, `next_stability` is monotone in the grade
(Easy ≥ Good ≥ Hard) for prior stability ≥ 0, difficulty in [1,10] and
retrievability in [0,1]; moreover the Hard result scales the increment by
the literal 0.5 (not w15), Good by 1, and Easy by w16. -/
theorem C4_success_monotone (s d r : ℝ) (hs : 0 ≤ s) (hd1 : 1 ≤ d)
    (hd10 : d ≤ 10) (hr0 : 0 ≤ r) (hr1 : r ≤ 1) :
    defaultFSRS.next_stability s d r 2 false ≤
      defaultFSRS.next_stability s d r 3 false ∧
    defaultFSRS.next_stability s d r 3 false ≤
      defaultFSRS.next_stability s d r 4 false ∧
    defaultFSRS.next_stability s d r 2 false =
      max 0.1 (s * (1 + Real.exp (defaultFSRS.w 8) * (11 - d) *
        (if s > 0 then s ^ (-(defaultFSRS.w 9)) else 1) *
        (Real.exp (defaultFSRS.w 10 * (1 - r)) - 1) * 0.5 * 1)) ∧
    defaultFSRS.next_stability s d r 3 false =
      max 0.1 (s * (1 + Real.exp (defaultFSRS.w 8) * (11 - d) *
        (if s > 0 then s ^ (-(defaultFSRS.w 9)) else 1) *
        (Real.exp (defaultFSRS.w 10 * (1 - r)) - 1) * 1 * 1)) ∧
    defaultFSRS.next_stability s d r 4 false =
      max 0.1 (s * (1 + Real.exp (defaultFSRS.w 8) * (11 - d) *
        (if s > 0 then s ^ (-(defaultFSRS.w 9)) else 1) *
        (Real.exp (defaultFSRS.w 10 * (1 - r)) - 1) * 1 *
          defaultFSRS.w 16)) := by
  have e2 : defaultFSRS.next_stability s d r 2 false =
      max 0.1 (s * (1 + Real.exp (defaultFSRS.w 8) * (11 - d) *
        (if s > 0 then s ^ (-(defaultFSRS.w 9)) else 1) *
        (Real.exp (defaultFSRS.w 10 * (1 - r)) - 1) * 0.5 * 1)) := by
    unfold FSRS.next_stability
    rw [if_neg (by simp : ¬ ((false : Bool) = true ∨ (2 : ℤ) = 1))]
    norm_num
  have e3 : defaultFSRS.next_stability s d r 3 false =
      max 0.1 (s * (1 + Real.exp (defaultFSRS.w 8) * (11 - d) *
        (if s > 0 then s ^ (-(defaultFSRS.w 9)) else 1) *
        (Real.exp (defaultFSRS.w 10 * (1 - r)) - 1) * 1 * 1)) := by
    unfold FSRS.next_stability
    rw [if_neg (by simp : ¬ ((false : Bool) = true ∨ (3 : ℤ) = 1))]
    norm_num
  have e4 : defaultFSRS.next_stability s d r 4 false =
      max 0.1 (s * (1 + Real.exp (defaultFSRS.w 8) * (11 - d) *
        (if s > 0 then s ^ (-(defaultFSRS.w 9)) else 1) *
        (Real.exp (defaultFSRS.w 10 * (1 - r)) - 1) * 1 *
          defaultFSRS.w 16)) := by
    unfold FSRS.next_stability
    rw [if_neg (by simp : ¬ ((false : Bool) = true ∨ (4 : ℤ) = 1))]
    norm_num
  have hfs : (0 : ℝ) ≤ (if s > 0 then s ^ (-(defaultFSRS.w 9)) else 1) := by
    by_cases hsp : s > 0
    · rw [if_pos hsp]
      exact (Real.rpow_pos_of_pos hsp _).le
    · rw [if_neg hsp]
      norm_num
  have hw10 : (0 : ℝ) ≤ defaultFSRS.w 10 := by
    norm_num [defaultFSRS_w, DEFAULT_PARAMS]
  have hfr : (0 : ℝ) ≤ Real.exp (defaultFSRS.w 10 * (1 - r)) - 1 := by
    have h1 : (1 : ℝ) ≤ Real.exp (defaultFSRS.w 10 * (1 - r)) :=
      Real.one_le_exp (mul_nonneg hw10 (by linarith))
    linarith
  have hC : (0 : ℝ) ≤ Real.exp (defaultFSRS.w 8) * (11 - d) *
      (if s > 0 then s ^ (-(defaultFSRS.w 9)) else 1) *
      (Real.exp (defaultFSRS.w 10 * (1 - r)) - 1) :=
    mul_nonneg (mul_nonneg (mul_nonneg (Real.exp_pos _).le (by linarith)) hfs) hfr
  have hw16 : defaultFSRS.w 16 = 2.9469 := by
    norm_num [defaultFSRS_w, DEFAULT_PARAMS]
  refine ⟨?_, ?_, e2, e3, e4⟩
  · rw [e2, e3]
    refine max_le_max le_rfl (mul_le_mul_of_nonneg_left ?_ hs)
    nlinarith [hC]
  · rw [e3, e4]
    refine max_le_max le_rfl (mul_le_mul_of_nonneg_left ?_ hs)
    rw [hw16]
    nlinarith [hC]

/-- Claim C4, witness: the monotonicity and the multiplier structure at
stability 2, difficulty 5, retrievability 0.9. -/
theorem C4_witness :
    defaultFSRS.next_stability 2 5 0.9 2 false ≤
      defaultFSRS.next_stability 2 5 0.9 3 false ∧
    defaultFSRS.next_stability 2 5 0.9 3 false ≤
      defaultFSRS.next_stability 2 5 0.9 4 false ∧
    defaultFSRS.next_stability 2 5 0.9 2 false =
      max 0.1 (2 * (1 + Real.exp (defaultFSRS.w 8) * (11 - 5) *
        (if (2 : ℝ) > 0 then (2 : ℝ) ^ (-(defaultFSRS.w 9)) else 1) *
        (Real.exp (defaultFSRS.w 10 * (1 - 0.9)) - 1) * 0.5 * 1)) ∧
    defaultFSRS.next_stability 2 5 0.9 3 false =
      max 0.1 (2 * (1 + Real.exp (defaultFSRS.w 8) * (11 - 5) *
        (if (2 : ℝ) > 0 then (2 : ℝ) ^ (-(defaultFSRS.w 9)) else 1) *
        (Real.exp (defaultFSRS.w 10 * (1 - 0.9)) - 1) * 1 * 1)) ∧
    defaultFSRS.next_stability 2 5 0.9 4 false =
      max 0.1 (2 * (1 + Real.exp (defaultFSRS.w 8) * (11 - 5) *
        (if (2 : ℝ) > 0 then (2 : ℝ) ^ (-(defaultFSRS.w 9)) else 1) *
        (Real.exp (defaultFSRS.w 10 * (1 - 0.9)) - 1) * 1 *
          defaultFSRS.w 16)) :=
  C4_success_monotone 2 5 0.9 (by norm_num) (by norm_num) (by norm_num)
    (by norm_num) (by norm_num)

/-! ### Branch lemmas for `schedule_card` and clamp bounds -/

theorem schedule_card_first (f : FSRS) (grade : ℤ) (cs : CardState) (now : ℝ)
    (h : cs.state.getD "new" = "new" ∨ cs.reps.getD 0 = 0) :
    f.schedule_card grade cs now =
      { state := if grade = 1 then "learning" else "review"
        stability := f.init_stability grade
        difficulty := f.init_difficulty grade
        retrievability := cs.retrievability.getD 1
        interval := f.calculate_interval (f.init_stability grade) none
        due_date := now + f.calculate_interval (f.init_stability grade) none * 86400
        reps := cs.reps.getD 0 + 1
        lapses := if grade = 1 then cs.lapses.getD 0 + 1 else cs.lapses.getD 0
        last_review := now } := by
  simp only [FSRS.schedule_card]
  rw [if_pos h]

theorem schedule_card_review (f : FSRS) (grade : ℤ) (cs : CardState) (now : ℝ)
    (h : ¬ (cs.state.getD "new" = "new" ∨ cs.reps.getD 0 = 0)) :
    f.schedule_card grade cs now =
      { state := if grade = 1 then "relearning" else "review"
        stability := f.next_stability (cs.stability.getD 0) (cs.difficulty.getD 5)
          (match cs.last_review with
            | some lr => f.calculate_retrievability ((now - lr) / 86400)
                (cs.stability.getD 0)
            | none => 1) grade (decide (grade = 1))
        difficulty := f.next_difficulty (cs.difficulty.getD 5) grade
        retrievability :=
          (match cs.last_review with
            | some lr => f.calculate_retrievability ((now - lr) / 86400)
                (cs.stability.getD 0)
            | none => 1)
        interval := f.calculate_interval
          (f.next_stability (cs.stability.getD 0) (cs.difficulty.getD 5)
            (match cs.last_review with
              | some lr => f.calculate_retrievability ((now - lr) / 86400)
                  (cs.stability.getD 0)
              | none => 1) grade (decide (grade = 1))) none
        due_date := now + f.calculate_interval
          (f.next_stability (cs.stability.getD 0) (cs.difficulty.getD 5)
            (match cs.last_review with
              | some lr => f.calculate_retrievability ((now - lr) / 86400)
                  (cs.stability.getD 0)
              | none => 1) grade (decide (grade = 1))) none * 86400
        reps := cs.reps.getD 0 + 1
        lapses := if grade = 1 then cs.lapses.getD 0 + 1 else cs.lapses.getD 0
        last_review := now } := by
  simp only [FSRS.schedule_card]
  rw [if_neg h]

theorem init_difficulty_mem (f : FSRS) (g : ℤ) :
    1 ≤ f.init_difficulty g ∧ f.init_difficulty g ≤ 10 :=
  ⟨le_max_left _ _, max_le (by norm_num) (min_le_left _ _)⟩

theorem next_difficulty_mem (f : FSRS) (d : ℝ) (g : ℤ) :
    1 ≤ f.next_difficulty d g ∧ f.next_difficulty d g ≤ 10 :=
  ⟨le_max_left _ _, max_le (by norm_num) (min_le_left _ _)⟩

theorem calculate_interval_ge (f : FSRS) (s : ℝ) (dro : Option ℝ) :
    0.1 ≤ f.calculate_interval s dro :=
  le_max_left _ _

theorem calculate_retrievability_mem (f : FSRS) (t s : ℝ) :
    0 ≤ f.calculate_retrievability t s ∧ f.calculate_retrievability t s ≤ 1 := by
  unfold FSRS.calculate_retrievability
  split_ifs
  · norm_num
  · norm_num
  · exact ⟨le_max_left _ _, max_le (by norm_num) (min_le_left _ _)⟩

theorem init_stability_default_ge (g : ℤ) :
    0.1 ≤ defaultFSRS.init_stability g := by
  unfold FSRS.init_stability
  split_ifs <;> norm_num [defaultFSRS_w, DEFAULT_PARAMS]

theorem next_stability_ge (f : FSRS) (s d r : ℝ) (g : ℤ) (b : Bool)
    (hs : 0.1 ≤ s) : 0.1 ≤ f.next_stability s d r g b := by
  unfold FSRS.next_stability
  split_ifs <;>
    first
      | exact le_min hs (le_max_left _ _)
      | exact le_max_left _ _

/-- Claim C1, counterexample: a prior state with review history and
stability 0.05 (inside the claimed domain [0,100]) graded Again yields a new
stability of 0.05, strictly below the claimed floor 0.1, because the lapse
branch returns `min(S, max(0.1, S_raw))` and the outer `min` can keep a
prior stability below 0.1; and a new card whose stored retrievability is 5
(the claim constrains only prior stability and difficulty) is returned with
retrievability 5, outside [0,1]. -/
theorem C1_counterexample :
    (defaultFSRS.schedule_card 1 lowStabilityCard 0).stability < 0.1 ∧
    1 < (defaultFSRS.schedule_card 3 weirdRetrCard 0).retrievability := by
  constructor
  · have hsteq : (defaultFSRS.schedule_card 1 lowStabilityCard 0).stability =
        defaultFSRS.next_stability 0.05 5
          (defaultFSRS.calculate_retrievability ((0 - 0) / 86400) 0.05) 1 true :=
      rfl
    rw [hsteq]
    unfold FSRS.next_stability
    rw [if_pos (Or.inl rfl)]
    exact lt_of_le_of_lt (min_le_left _ _) (by norm_num)
  · have hreq : (defaultFSRS.schedule_card 3 weirdRetrCard 0).retrievability =
        5 := rfl
    rw [hreq]
    norm_num

/-- Claim C1 (amended): for every valid grade and every prior state with
stability in [0,100], difficulty in [1,10], retrievability in [0,1], and —
when the card has review history (stage not new and repetitions positive) —
stability at least 0.1, the default scheduler returns difficulty in [1,10],
stability ≥ 0.1, interval ≥ 0.1, retrievability in [0,1], and repetition and
lapse counts at least their prior values. -/
theorem C1_schedule_bounds (grade : ℤ) (cs : CardState) (now : ℝ)
    (hg : grade = 1 ∨ grade = 2 ∨ grade = 3 ∨ grade = 4)
    (hs0 : 0 ≤ cs.stability.getD 0) (hs100 : cs.stability.getD 0 ≤ 100)
    (hd1 : 1 ≤ cs.difficulty.getD 5) (hd10 : cs.difficulty.getD 5 ≤ 10)
    (hr0 : 0 ≤ cs.retrievability.getD 1) (hr1 : cs.retrievability.getD 1 ≤ 1)
    (hhist : ¬ (cs.state.getD "new" = "new" ∨ cs.reps.getD 0 = 0) →
      0.1 ≤ cs.stability.getD 0) :
    1 ≤ (defaultFSRS.schedule_card grade cs now).difficulty ∧
    (defaultFSRS.schedule_card grade cs now).difficulty ≤ 10 ∧
    0.1 ≤ (defaultFSRS.schedule_card grade cs now).stability ∧
    0.1 ≤ (defaultFSRS.schedule_card grade cs now).interval ∧
    0 ≤ (defaultFSRS.schedule_card grade cs now).retrievability ∧
    (defaultFSRS.schedule_card grade cs now).retrievability ≤ 1 ∧
    cs.reps.getD 0 ≤ (defaultFSRS.schedule_card grade cs now).reps ∧
    cs.lapses.getD 0 ≤ (defaultFSRS.schedule_card grade cs now).lapses := by
  by_cases hb : cs.state.getD "new" = "new" ∨ cs.reps.getD 0 = 0
  · rw [schedule_card_first _ _ _ _ hb]
    refine ⟨(init_difficulty_mem _ _).1, (init_difficulty_mem _ _).2,
      init_stability_default_ge _, calculate_interval_ge _ _ _, hr0, hr1,
      Nat.le_succ _, ?_⟩
    by_cases h1 : grade = 1
    · simp only [if_pos h1]
      exact Nat.le_succ _
    · simp only [if_neg h1]
      exact le_rfl
  · rw [schedule_card_review _ _ _ _ hb]
    have hs : 0.1 ≤ cs.stability.getD 0 := hhist hb
    refine ⟨(next_difficulty_mem _ _ _).1, (next_difficulty_mem _ _ _).2,
      next_stability_ge _ _ _ _ _ _ hs, calculate_interval_ge _ _ _, ?_, ?_,
      Nat.le_succ _, ?_⟩
    · cases hlr : cs.last_review with
      | some lr => exact (calculate_retrievability_mem _ _ _).1
      | none => norm_num
    · cases hlr : cs.last_review with
      | some lr => exact (calculate_retrievability_mem _ _ _).2
      | none => norm_num
    · by_cases h1 : grade = 1
      · simp only [if_pos h1]
        exact Nat.le_succ _
      · simp only [if_neg h1]
        exact le_rfl

/-- Claim C1, witness: the bounds hold for a fresh new card graded Good. -/
theorem C1_witness :
    1 ≤ (defaultFSRS.schedule_card 3 newCard 0).difficulty ∧
    (defaultFSRS.schedule_card 3 newCard 0).difficulty ≤ 10 ∧
    0.1 ≤ (defaultFSRS.schedule_card 3 newCard 0).stability ∧
    0.1 ≤ (defaultFSRS.schedule_card 3 newCard 0).interval ∧
    0 ≤ (defaultFSRS.schedule_card 3 newCard 0).retrievability ∧
    (defaultFSRS.schedule_card 3 newCard 0).retrievability ≤ 1 ∧
    newCard.reps.getD 0 ≤ (defaultFSRS.schedule_card 3 newCard 0).reps ∧
    newCard.lapses.getD 0 ≤ (defaultFSRS.schedule_card 3 newCard 0).lapses :=
  C1_schedule_bounds 3 newCard 0 (Or.inr (Or.inr (Or.inl rfl)))
    (by norm_num [newCard]) (by norm_num [newCard]) (by norm_num [newCard])
    (by norm_num [newCard]) (by norm_num [newCard]) (by norm_num [newCard])
    (by simp [newCard])

/-- Claim C2, counterexample: the scheduler core performs no grade
validation — `schedule_card` applied to the out-of-range grade 5 does not
fail, it computes a full new state, whose stability is the Easy anchor w3
(15.4722), because `init_stability` routes every grade other than 1, 2, 3
to its trailing else branch. -/
theorem C2_counterexample :
    (defaultFSRS.schedule_card 5 newCard 0).stability = 15.4722 := by
  rw [schedule_card_first defaultFSRS 5 newCard 0 (Or.inl rfl)]
  show defaultFSRS.init_stability 5 = 15.4722
  unfold FSRS.init_stability
  norm_num [defaultFSRS_w, DEFAULT_PARAMS]

/-- Claim C2 (amended): grade validation lives in the HTTP route
`review_card`, not in the scheduler core: the route fails with the invalid
grade error for every grade outside {1,2,3,4} before invoking the
scheduler, and for grades in {1,2,3,4} it does not fail and returns the
scheduler's result. -/
theorem C2_route_grade_validation (grade : ℤ) (cs : CardState) (now : ℝ) :
    ((grade ≠ 1 ∧ grade ≠ 2 ∧ grade ≠ 3 ∧ grade ≠ 4) →
      review_card defaultFSRS grade cs now =
        Except.error "Invalid grade. Must be 1-4") ∧
    ((grade = 1 ∨ grade = 2 ∨ grade = 3 ∨ grade = 4) →
      review_card defaultFSRS grade cs now =
        Except.ok (defaultFSRS.schedule_card grade cs now)) := by
  constructor
  · intro h
    unfold review_card
    rw [if_neg (by tauto)]
  · intro h
    unfold review_card
    rw [if_pos h]

/-- Claim C2, witness: the route rejects grade 5 and grade 0, and accepts
grade 3, on a fresh card. -/
theorem C2_witness :
    review_card defaultFSRS 5 newCard 0 =
      Except.error "Invalid grade. Must be 1-4" ∧
    review_card defaultFSRS 0 newCard 0 =
      Except.error "Invalid grade. Must be 1-4" ∧
    review_card defaultFSRS 3 newCard 0 =
      Except.ok (defaultFSRS.schedule_card 3 newCard 0) :=
  ⟨(C2_route_grade_validation 5 newCard 0).1 (by norm_num),
    (C2_route_grade_validation 0 newCard 0).1 (by norm_num),
    (C2_route_grade_validation 3 newCard 0).2 (Or.inr (Or.inr (Or.inl rfl)))⟩

/-- Claim C6: on a first-ever review (stage new or repetition count 0) with
a valid grade, the returned stability and difficulty are exactly
`init_stability(grade)` and `init_difficulty(grade)`, with no elapsed-time
term; literally, grading a fresh card Good yields stability 3.1262,
difficulty 7.2102, state review, reps 1, lapses 0, and grading it Again
yields stability 0.4072, state learning, lapses 1. -/
theorem C6_first_review_exact (grade : ℤ) (cs : CardState) (now : ℝ)
    (hfirst : cs.state.getD "new" = "new" ∨ cs.reps.getD 0 = 0)
    (hg : grade = 1 ∨ grade = 2 ∨ grade = 3 ∨ grade = 4) :
    ((defaultFSRS.schedule_card grade cs now).stability =
        defaultFSRS.init_stability grade ∧
      (defaultFSRS.schedule_card grade cs now).difficulty =
        defaultFSRS.init_difficulty grade) ∧
    ((defaultFSRS.schedule_card 3 newCard now).stability = 3.1262 ∧
      (defaultFSRS.schedule_card 3 newCard now).difficulty = 7.2102 ∧
      (defaultFSRS.schedule_card 3 newCard now).state = "review" ∧
      (defaultFSRS.schedule_card 3 newCard now).reps = 1 ∧
      (defaultFSRS.schedule_card 3 newCard now).lapses = 0) ∧
    ((defaultFSRS.schedule_card 1 newCard now).stability = 0.4072 ∧
      (defaultFSRS.schedule_card 1 newCard now).state = "learning" ∧
      (defaultFSRS.schedule_card 1 newCard now).lapses = 1) := by
  refine ⟨⟨?_, ?_⟩, ⟨?_, ?_, rfl, rfl, rfl⟩, ⟨rfl, rfl, rfl⟩⟩
  · rw [schedule_card_first defaultFSRS grade cs now hfirst]
  · rw [schedule_card_first defaultFSRS grade cs now hfirst]
  · rfl
  · rw [schedule_card_first defaultFSRS 3 newCard now (Or.inl rfl)]
    show defaultFSRS.init_difficulty 3 = 7.2102
    unfold FSRS.init_difficulty
    push_cast
    norm_num [defaultFSRS_w, DEFAULT_PARAMS, min_def, max_def]

/-- Claim C6, witness: the exactness applied to a fresh card graded Hard. -/
theorem C6_witness :
    (defaultFSRS.schedule_card 2 newCard 0).stability =
      defaultFSRS.init_stability 2 ∧
    (defaultFSRS.schedule_card 2 newCard 0).difficulty =
      defaultFSRS.init_difficulty 2 :=
  (C6_first_review_exact 2 newCard 0 (Or.inl rfl) (Or.inr (Or.inl rfl))).1

/-- Claim C8, counterexample: the source's `schedule_card` takes no
timestamp argument and reads `datetime.utcnow()` itself, so two invocations
with identical caller-supplied inputs (grade and card state) made at
different wall-clock instants return different results: the persisted
last-review timestamps differ. -/
theorem C8_counterexample :
    (defaultFSRS.schedule_card 3 newCard 0).last_review ≠
      (defaultFSRS.schedule_card 3 newCard 86400).last_review := by
  have h1 : (defaultFSRS.schedule_card 3 newCard 0).last_review = 0 := rfl
  have h2 : (defaultFSRS.schedule_card 3 newCard 86400).last_review = 86400 :=
    rfl
  rw [h1, h2]
  norm_num

/-- Claim C8 (amended): `schedule_card` reads the system clock itself, so
determinism only holds once each clock reading is treated as an input;
under that modelling it is deterministic, and two schedulers constructed
from identical parameters and desired retention are equal and produce
identical outputs (due date and last-review timestamp included) on
identical (grade, state, clock) inputs. -/
theorem C8_config_determinism (p : Option (ℕ → ℝ)) (dr : ℝ) (f1 f2 : FSRS)
    (h1 : f1 = FSRS.init p dr) (h2 : f2 = FSRS.init p dr) (grade : ℤ)
    (cs : CardState) (now : ℝ) :
    f1 = f2 ∧ f1.schedule_card grade cs now = f2.schedule_card grade cs now := by
  subst h1
  subst h2
  exact ⟨rfl, rfl⟩

/-- Claim C8, witness: two schedulers built from the default configuration
coincide on a concrete review. -/
theorem C8_witness :
    FSRS.init none 0.9 = FSRS.init none 0.9 ∧
    (FSRS.init none 0.9).schedule_card 3 newCard 0 =
      (FSRS.init none 0.9).schedule_card 3 newCard 0 :=
  C8_config_determinism none 0.9 _ _ rfl rfl 3 newCard 0

/-- Claim C9: on a first-ever review with any valid grade, the returned
retrievability is exactly the prior state's retrievability (1 when the key
is absent), not recomputed and not clamped. -/
theorem C9_first_review_retrievability (p : Option (ℕ → ℝ)) (dr : ℝ)
    (grade : ℤ) (cs : CardState) (now : ℝ)
    (hfirst : cs.state.getD "new" = "new" ∨ cs.reps.getD 0 = 0)
    (hg : grade = 1 ∨ grade = 2 ∨ grade = 3 ∨ grade = 4) :
    ((FSRS.init p dr).schedule_card grade cs now).retrievability =
      cs.retrievability.getD 1 := by
  rw [schedule_card_first (FSRS.init p dr) grade cs now hfirst]

/-- Claim C9, witness: a new card carrying the out-of-range retrievability 5
keeps it unchanged through its first review. -/
theorem C9_witness :
    ((FSRS.init none 0.9).schedule_card 2 weirdRetrCard 0).retrievability = 5 :=
  (C9_first_review_retrievability none 0.9 2 weirdRetrCard 0 (Or.inl rfl)
    (Or.inr (Or.inl rfl))).trans rfl

end FsrsModel

end
